import Mathlib

/-!
Verification of the Flow Theory engines (single-system Engine A, two-layer
Engine B, N-system Engine C, and the Borrow-Return kernels 2 and 3 plus the
two-system contagion kernel) against their natural-language specification.

The Python sources are shallowly embedded: floating-point values are modelled
as exact rationals (every literal in the sources is a decimal rational, so
every update rule is exact arithmetic over ℚ), Python lists become `List`,
`Optional` arguments become `Option`, Python `int` step counts become `ℤ`
(`range n` iterates `n.toNat` times), and the `assert` statements of
`engine_c_step` become an `Option`-returning step that is `none` exactly when
an assertion would fail.
-/

namespace FlowTheory

/-- State of a single Flow Theory system (`EngineAState` in `engine_a.py`):
flow `F`, capacity `C`, trust `T`, drift `D`. -/
structure EngineAState where
  F : ℚ
  C : ℚ
  T : ℚ
  D : ℚ
deriving DecidableEq, Repr

/-- Parameters for Engine A dynamics (`EngineAParams` in `engine_a.py`). -/
structure EngineAParams where
  r : ℚ
  alpha : ℚ
  delta : ℚ
  lambda_trust : ℚ
  rho_trust : ℚ
  kappa_capacity : ℚ
deriving DecidableEq, Repr

/-- The shared structural-overload signal: `max(0.0, F - C)`, as computed
inline in `engine_a_step`, `engine_b_step` and `engine_c_step`. -/
def pressure (F C : ℚ) : ℚ := max 0 (F - C)

/-- One time step for a single system (`engine_a_step` in `engine_a.py`). -/
def engine_a_step (state : EngineAState) (params : EngineAParams)
    (shock_F : ℚ) (shock_C : ℚ) : EngineAState :=
  let F := state.F
  let C := state.C
  let T := state.T
  let D := state.D
  let P := pressure F C
  let D_next := D + params.alpha * P - params.delta * D
  let T_next := max 0 (min 1 (T + params.rho_trust - params.lambda_trust * P))
  let C_next := C + params.kappa_capacity * (F - C) + shock_C
  let F_next := F + params.r * T_next + shock_F - P
  ⟨F_next, C_next, T_next, D_next⟩

/-- Per-step shock lookup: `shocks[t] if shocks is not None and t < len(shocks)
else 0.0`, as in `run_engine_a`/`engine_c_step`. -/
def shockAt (shocks : Option (List ℚ)) (t : ℕ) : ℚ :=
  match shocks with
  | none => 0
  | some l => l.getD t 0

/-- The loop of `run_engine_a`, unrolled structurally: `n` remaining
iterations, `t0` the current step index (used to index the shock lists). -/
def run_engine_a_aux (state : EngineAState) (params : EngineAParams)
    (n : ℕ) (t0 : ℕ) (shocks_F shocks_C : Option (List ℚ)) :
    List EngineAState :=
  match n with
  | 0 => [state]
  | Nat.succ m =>
      state ::
        run_engine_a_aux
          (engine_a_step state params (shockAt shocks_F t0) (shockAt shocks_C t0))
          params m (t0 + 1) shocks_F shocks_C

/-- `run_engine_a` in `engine_a.py`: history `[state]` followed by one stepped
state per loop iteration; `range(steps)` performs `steps.toNat` iterations. -/
def run_engine_a (state : EngineAState) (params : EngineAParams)
    (steps : ℤ) (shocks_F shocks_C : Option (List ℚ)) : List EngineAState :=
  run_engine_a_aux state params steps.toNat 0 shocks_F shocks_C

/-- Parameters for a single layer in Engine B
(`EngineBLayerParams` in `engine_b.py`). -/
structure EngineBLayerParams where
  r : ℚ
  alpha : ℚ
  delta : ℚ
  lambda_trust : ℚ
  rho_trust : ℚ
  kappa_capacity : ℚ
  beta_drift_from_other : ℚ
deriving DecidableEq, Repr

/-- Full Engine B parameters (`EngineBParams` in `engine_b.py`). -/
structure EngineBParams where
  fast : EngineBLayerParams
  slow : EngineBLayerParams
  gamma_fs : ℚ
deriving DecidableEq, Repr

/-- Two-layer state (`EngineBState` in `engine_b.py`). -/
structure EngineBState where
  fast : EngineAState
  slow : EngineAState
deriving DecidableEq, Repr

/-- One time step of the two-layer fast/slow system
(`engine_b_step` in `engine_b.py`). -/
def engine_b_step (state : EngineBState) (params : EngineBParams)
    (shock_F_fast shock_C_fast shock_F_slow shock_C_slow : ℚ) : EngineBState :=
  let Ff := state.fast.F
  let Cf := state.fast.C
  let Tf := state.fast.T
  let Df := state.fast.D
  let Fs := state.slow.F
  let Cs := state.slow.C
  let Ts := state.slow.T
  let Ds := state.slow.D
  let Pf := pressure Ff Cf
  let Ps := pressure Fs Cs
  let Df_next := Df + params.fast.alpha * Pf - params.fast.delta * Df
  let Tf_next :=
    max 0 (min 1 (Tf + params.fast.rho_trust - params.fast.lambda_trust * Pf))
  let Cf_next := Cf + params.fast.kappa_capacity * (Ff - Cf) + shock_C_fast
  let Ff_next :=
    Ff + params.fast.r * Tf_next + params.gamma_fs * Ts + shock_F_fast - Pf
  let Ds_next := Ds +
    (params.slow.alpha * Ps + params.slow.beta_drift_from_other * Pf -
      params.slow.delta * Ds)
  let Ts_next :=
    max 0 (min 1 (Ts + params.slow.rho_trust - params.slow.lambda_trust * Ps))
  let Cs_next := Cs + params.slow.kappa_capacity * (Fs - Cs) + shock_C_slow
  let Fs_next := Fs + params.slow.r * Ts_next + shock_F_slow - Ps
  ⟨⟨Ff_next, Cf_next, Tf_next, Df_next⟩, ⟨Fs_next, Cs_next, Ts_next, Ds_next⟩⟩

/-- The loop of `run_engine_b` (no exogenous shocks). -/
def run_engine_b_aux (state : EngineBState) (params : EngineBParams)
    (n : ℕ) : List EngineBState :=
  match n with
  | 0 => [state]
  | Nat.succ m =>
      state :: run_engine_b_aux (engine_b_step state params 0 0 0 0) params m

/-- `run_engine_b` in `engine_b.py`. -/
def run_engine_b (state : EngineBState) (params : EngineBParams)
    (steps : ℤ) : List EngineBState :=
  run_engine_b_aux state params steps.toNat

/-- State of N coupled systems (`EngineCState` in `engine_c.py`). -/
structure EngineCState where
  systems : List EngineAState
deriving DecidableEq, Repr

/-- Parameters for Engine C (`EngineCParams` in `engine_c.py`):
per-system parameters plus an N x N coupling matrix `W`. -/
structure EngineCParams where
  params_per_system : List EngineAParams
  W : List (List ℚ)
deriving DecidableEq, Repr

/-- Default used to make Python's bounds-checked list indexing total; all
theorems only inspect in-range indices, where the default never appears. -/
def dState : EngineAState := ⟨0, 0, 0, 0⟩

/-- Default parameter record for total indexing (see `dState`). -/
def dParams : EngineAParams := ⟨0, 0, 0, 0, 0, 0⟩

/-- Matrix entry `W[i][j]`, total with default 0 for out-of-range indices. -/
def Wget (W : List (List ℚ)) (i j : ℕ) : ℚ := (W.getD i []).getD j 0

/-- The `pressures` list of `engine_c_step`: pressure of every system of the
current (pre-step) state, in order. -/
def engine_c_pressures (state : EngineCState) : List ℚ :=
  state.systems.map (fun s => pressure s.F s.C)

/-- The endogenous flow shock of system `i` in `engine_c_step`:
`sum_j W[i][j] * pressures[j]` over the pre-step pressures. -/
def engine_c_endo (state : EngineCState) (W : List (List ℚ)) (i : ℕ) : ℚ :=
  ((List.range state.systems.length).map
    (fun j => Wget W i j * (engine_c_pressures state).getD j 0)).sum

/-- The `assert` statements at the top of `engine_c_step`: parameter count and
coupling-matrix shape must match the number of systems. -/
def engine_c_dims_ok (state : EngineCState) (params : EngineCParams) : Prop :=
  params.params_per_system.length = state.systems.length ∧
  params.W.length = state.systems.length ∧
  ∀ row ∈ params.W, row.length = state.systems.length

instance (state : EngineCState) (params : EngineCParams) :
    Decidable (engine_c_dims_ok state params) := by
  unfold engine_c_dims_ok; infer_instance

/-- The body of `engine_c_step` after the asserts: all pressures are computed
from the pre-step `state`, then each system takes one `engine_a_step` with
`shock_F = exogenous + endogenous` and `shock_C = exogenous`. -/
def engine_c_step_core (state : EngineCState) (params : EngineCParams)
    (shocks_F shocks_C : Option (List ℚ)) : EngineCState :=
  ⟨(List.range state.systems.length).map (fun i =>
    engine_a_step (state.systems.getD i dState)
      (params.params_per_system.getD i dParams)
      (shockAt shocks_F i + engine_c_endo state params.W i)
      (shockAt shocks_C i))⟩

/-- `engine_c_step` in `engine_c.py`: `none` when an assert fails. -/
def engine_c_step (state : EngineCState) (params : EngineCParams)
    (shocks_F shocks_C : Option (List ℚ)) : Option EngineCState :=
  if engine_c_dims_ok state params then
    some (engine_c_step_core state params shocks_F shocks_C)
  else none

/-- The loop of `run_engine_c` (no exogenous shocks); a failing assert inside
any step aborts the whole run with `none`. -/
def run_engine_c_aux (state : EngineCState) (params : EngineCParams)
    (n : ℕ) : Option (List EngineCState) :=
  match n with
  | 0 => some [state]
  | Nat.succ m =>
      match engine_c_step state params none none with
      | none => none
      | some s2 => (run_engine_c_aux s2 params m).map (fun h => state :: h)

/-- `run_engine_c` in `engine_c.py`. -/
def run_engine_c (state : EngineCState) (params : EngineCParams)
    (steps : ℤ) : Option (List EngineCState) :=
  run_engine_c_aux state params steps.toNat

/-- One row of a Kernel 2 simulation (`Kernel2State` in
`kernel_2_capacity_pressure.py`): pre-step stock and capacity together with
the step's inflow, outflow, derived flow and signed pressure. -/
structure Kernel2State where
  t : ℕ
  stock : ℚ
  inflow : ℚ
  outflow : ℚ
  flow : ℚ
  capacity : ℚ
  pressure : ℚ
deriving DecidableEq, Repr

/-- Result of `kernel2_step`: `(stock_next, capacity_next, flow, pressure)`. -/
structure Kernel2Result where
  stock_next : ℚ
  capacity_next : ℚ
  flow : ℚ
  pressure : ℚ
deriving DecidableEq, Repr

/-- `kernel2_step` in `kernel_2_capacity_pressure.py`. Note the pressure here
is the signed `flow - capacity`, not clamped at zero. -/
def kernel2_step (stock capacity inflow outflow k_capacity : ℚ) :
    Kernel2Result :=
  let flow := inflow - outflow
  let pressure := flow - capacity
  let stock_next := stock + inflow - outflow
  let capacity_next := capacity + k_capacity * (flow - capacity)
  ⟨stock_next, capacity_next, flow, pressure⟩

/-- The loop of `simulate_kernel2`: records one `Kernel2State` per step. -/
def simulate_kernel2_aux (n t : ℕ) (S C k : ℚ)
    (inflow_rule outflow_rule : ℕ → ℚ → ℚ → ℚ) : List Kernel2State :=
  match n with
  | 0 => []
  | Nat.succ m =>
      let I := inflow_rule t S C
      let O := outflow_rule t S C
      let r := kernel2_step S C I O k
      ⟨t, S, I, O, r.flow, C, r.pressure⟩ ::
        simulate_kernel2_aux m (t + 1) r.stock_next r.capacity_next k
          inflow_rule outflow_rule

/-- `simulate_kernel2` in `kernel_2_capacity_pressure.py`. -/
def simulate_kernel2 (T : ℤ) (S0 C0 k_capacity : ℚ)
    (inflow_rule outflow_rule : ℕ → ℚ → ℚ → ℚ) : List Kernel2State :=
  simulate_kernel2_aux T.toNat 0 S0 C0 k_capacity inflow_rule outflow_rule

/-- One row of a Kernel 3 simulation (`Kernel3State` in
`kernel_3_drift_cycle.py`). -/
structure Kernel3State where
  t : ℕ
  stock : ℚ
  inflow : ℚ
  outflow : ℚ
  flow : ℚ
  capacity : ℚ
  pressure : ℚ
  drift : ℚ
deriving DecidableEq, Repr

/-- Result of `kernel3_step`. -/
structure Kernel3Result where
  stock_next : ℚ
  capacity_next : ℚ
  drift_next : ℚ
  flow : ℚ
  pressure : ℚ
deriving DecidableEq, Repr

/-- `kernel3_step` in `kernel_3_drift_cycle.py`; pressure is again the signed
`flow - capacity`. -/
def kernel3_step (stock capacity drift inflow outflow k_capacity alpha delta :
    ℚ) : Kernel3Result :=
  let flow := inflow - outflow
  let pressure := flow - capacity
  let stock_next := stock + inflow - outflow
  let capacity_next := capacity + k_capacity * (flow - capacity)
  let drift_next := (1 - delta) * drift + alpha * pressure
  ⟨stock_next, capacity_next, drift_next, flow, pressure⟩

/-- The loop of `simulate_kernel3`. -/
def simulate_kernel3_aux (n t : ℕ) (S C D k alpha delta : ℚ)
    (inflow_rule outflow_rule : ℕ → ℚ → ℚ → ℚ → ℚ) : List Kernel3State :=
  match n with
  | 0 => []
  | Nat.succ m =>
      let I := inflow_rule t S C D
      let O := outflow_rule t S C D
      let r := kernel3_step S C D I O k alpha delta
      ⟨t, S, I, O, r.flow, C, r.pressure, D⟩ ::
        simulate_kernel3_aux m (t + 1) r.stock_next r.capacity_next
          r.drift_next k alpha delta inflow_rule outflow_rule

/-- `simulate_kernel3` in `kernel_3_drift_cycle.py`. -/
def simulate_kernel3 (T : ℤ) (S0 C0 D0 k_capacity alpha delta : ℚ)
    (inflow_rule outflow_rule : ℕ → ℚ → ℚ → ℚ → ℚ) : List Kernel3State :=
  simulate_kernel3_aux T.toNat 0 S0 C0 D0 k_capacity alpha delta
    inflow_rule outflow_rule

/-- One recorded state of the two-system contagion kernel (`TwoSystemState`
in `two_system_contagion_kernel.py`). -/
structure TwoSystemState where
  t : ℕ
  F1 : ℚ
  C1 : ℚ
  P1 : ℚ
  D1 : ℚ
  F2 : ℚ
  C2 : ℚ
  P2 : ℚ
  D2 : ℚ
  T : ℚ
deriving DecidableEq, Repr

/-- The structural parameters of `two_system_step`, grouped. -/
structure TwoSystemParams where
  k1 : ℚ
  k2 : ℚ
  alpha1 : ℚ
  alpha2 : ℚ
  delta1 : ℚ
  delta2 : ℚ
  r1 : ℚ
  r2 : ℚ
  lambda_T : ℚ
  coupling : ℚ
deriving DecidableEq, Repr

/-- The 9-tuple returned by `two_system_step`:
`(F1_next, C1_next, D1_next, F2_next, C2_next, D2_next, T_next, P1, P2)`. -/
structure TwoSystemResult where
  F1_next : ℚ
  C1_next : ℚ
  D1_next : ℚ
  F2_next : ℚ
  C2_next : ℚ
  D2_next : ℚ
  T_next : ℚ
  P1 : ℚ
  P2 : ℚ
deriving DecidableEq, Repr

/-- `two_system_step` in `two_system_contagion_kernel.py`. The local
pressures are the signed `F - C`; shared trust is eroded by the sum of their
absolute values and clamped below at 0 only (no upper clamp). -/
def two_system_step (F1 C1 D1 F2 C2 D2 T : ℚ) (p : TwoSystemParams)
    (shock1 : ℚ) : TwoSystemResult :=
  let P1 := F1 - C1
  let P2 := F2 - C2
  let D1_next := (1 - p.delta1) * D1 + p.alpha1 * P1
  let D2_next := (1 - p.delta2) * D2 + p.alpha2 * (P2 + p.coupling * P1)
  let total_pressure := |P1| + |P2|
  let T_next := max 0 (T - p.lambda_T * total_pressure)
  let F1_next := F1 + p.r1 * T - D1 - P1 + shock1
  let F2_next := F2 + p.r2 * T - D2 - P2
  let C1_next := C1 + p.k1 * (F1 - C1)
  let C2_next := C2 + p.k2 * (F2 - C2)
  ⟨F1_next, C1_next, D1_next, F2_next, C2_next, D2_next, T_next, P1, P2⟩

/-- The loop of `simulate_two_system_kernel`: `shock1 = bubble_shock` while
`t < bubble_steps`, else 0; appends the post-step state each iteration (the
initial condition is never recorded). -/
def simulate_two_system_aux (n t : ℕ) (F1 C1 D1 F2 C2 D2 T : ℚ)
    (p : TwoSystemParams) (bubble_steps : ℤ) (bubble_shock : ℚ) :
    List TwoSystemState :=
  match n with
  | 0 => []
  | Nat.succ m =>
      let shock1 := if (t : ℤ) < bubble_steps then bubble_shock else 0
      let r := two_system_step F1 C1 D1 F2 C2 D2 T p shock1
      ⟨t, r.F1_next, r.C1_next, r.P1, r.D1_next,
        r.F2_next, r.C2_next, r.P2, r.D2_next, r.T_next⟩ ::
        simulate_two_system_aux m (t + 1) r.F1_next r.C1_next r.D1_next
          r.F2_next r.C2_next r.D2_next r.T_next p bubble_steps bubble_shock

/-- `simulate_two_system_kernel` in `two_system_contagion_kernel.py`. -/
def simulate_two_system_kernel (T_steps : ℤ)
    (F1_0 C1_0 D1_0 F2_0 C2_0 D2_0 T0 : ℚ) (p : TwoSystemParams)
    (bubble_steps : ℤ) (bubble_shock : ℚ) : List TwoSystemState :=
  simulate_two_system_aux T_steps.toNat 0 F1_0 C1_0 D1_0 F2_0 C2_0 D2_0 T0 p
    bubble_steps bubble_shock

/-- The default parameter values of `simulate_two_system_kernel`. -/
def twoSystemDefaultParams : TwoSystemParams :=
  ⟨2/10, 5/100, 4/10, 2/10, 1/10, 5/100, 8/10, 5/10, 1/10, 3/10⟩

end FlowTheory

namespace FlowTheory

theorem getD_range_map {α : Type} (f : ℕ → α) (d : α) {i N : ℕ}
    (hi : i < N) : ((List.range N).map f).getD i d = f i := by
  rw [List.getD_eq_getElem _ _ (by simpa using hi)]
  simp

theorem engine_c_pressures_getD (state : EngineCState) {j : ℕ}
    (hj : j < state.systems.length) :
    (engine_c_pressures state).getD j 0 =
      pressure (state.systems.getD j dState).F
        (state.systems.getD j dState).C := by
  unfold engine_c_pressures
  rw [List.getD_eq_getElem _ _ (by simpa using hj)]
  rw [List.getElem_map, List.getD_eq_getElem _ _ hj]

theorem engine_c_endo_eq (state : EngineCState) (W : List (List ℚ)) (i : ℕ) :
    engine_c_endo state W i =
      ((List.range state.systems.length).map (fun j =>
        Wget W i j *
          pressure (state.systems.getD j dState).F
            (state.systems.getD j dState).C)).sum := by
  unfold engine_c_endo
  congr 1
  apply List.map_congr_left
  intro j hj
  rw [engine_c_pressures_getD state (List.mem_range.mp hj)]

theorem engine_c_step_core_length (state : EngineCState)
    (params : EngineCParams) (shocks_F shocks_C : Option (List ℚ)) :
    (engine_c_step_core state params shocks_F shocks_C).systems.length =
      state.systems.length := by
  simp [engine_c_step_core]

theorem engine_c_step_core_getD (state : EngineCState)
    (params : EngineCParams) (shocks_F shocks_C : Option (List ℚ)) {i : ℕ}
    (hi : i < state.systems.length) :
    (engine_c_step_core state params shocks_F shocks_C).systems.getD i
        dState =
      engine_a_step (state.systems.getD i dState)
        (params.params_per_system.getD i dParams)
        (shockAt shocks_F i + engine_c_endo state params.W i)
        (shockAt shocks_C i) := by
  unfold engine_c_step_core
  exact getD_range_map _ _ hi

theorem Wget_eq_zero {W : List (List ℚ)}
    (hW : ∀ row ∈ W, ∀ x ∈ row, x = 0) (i j : ℕ) : Wget W i j = 0 := by
  unfold Wget
  by_cases hi : i < W.length
  · have hrow : W.getD i [] ∈ W := by
      rw [List.getD_eq_getElem _ _ hi]
      exact List.getElem_mem hi
    by_cases hj : j < (W.getD i []).length
    · have hx : (W.getD i []).getD j 0 ∈ W.getD i [] := by
        rw [List.getD_eq_getElem _ _ hj]
        exact List.getElem_mem hj
      exact hW _ hrow _ hx
    · exact List.getD_eq_default _ _ (le_of_not_lt hj)
  · rw [List.getD_eq_default _ _ (le_of_not_lt hi)]
    simp

theorem engine_c_endo_zero (state : EngineCState) {W : List (List ℚ)}
    (hW : ∀ row ∈ W, ∀ x ∈ row, x = 0) (i : ℕ) :
    engine_c_endo state W i = 0 := by
  unfold engine_c_endo
  apply List.sum_eq_zero
  intro x hx
  simp only [List.mem_map] at hx
  obtain ⟨j, _, rfl⟩ := hx
  rw [Wget_eq_zero hW]
  ring

theorem engine_c_step_core_zero_coupling (state : EngineCState)
    (params : EngineCParams) (hW : ∀ row ∈ params.W, ∀ x ∈ row, x = 0)
    {i : ℕ} (hi : i < state.systems.length) :
    (engine_c_step_core state params none none).systems.getD i dState =
      engine_a_step (state.systems.getD i dState)
        (params.params_per_system.getD i dParams) 0 0 := by
  rw [engine_c_step_core_getD state params none none hi,
    engine_c_endo_zero state hW]
  simp [shockAt]

theorem engine_c_dims_ok_core (state : EngineCState) (params : EngineCParams)
    (shocks_F shocks_C : Option (List ℚ)) (h : engine_c_dims_ok state params) :
    engine_c_dims_ok (engine_c_step_core state params shocks_F shocks_C)
      params := by
  unfold engine_c_dims_ok at h ⊢
  rw [engine_c_step_core_length]
  exact h

theorem run_zero_coupling_aux (params : EngineCParams)
    (hW : ∀ row ∈ params.W, ∀ x ∈ row, x = 0) :
    ∀ (n t0 : ℕ) (state : EngineCState), engine_c_dims_ok state params →
      ∀ i, i < state.systems.length →
      ∃ h, run_engine_c_aux state params n = some h ∧
        h.map (fun ns => ns.systems.getD i dState) =
          run_engine_a_aux (state.systems.getD i dState)
            (params.params_per_system.getD i dParams) n t0 none none := by
  intro n
  induction n with
  | zero => exact fun t0 state hd i hi => ⟨[state], rfl, rfl⟩
  | succ m ih =>
    intro t0 state hd i hi
    have hstep : engine_c_step state params none none =
        some (engine_c_step_core state params none none) := by
      rw [engine_c_step, if_pos hd]
    have hd2 := engine_c_dims_ok_core state params none none hd
    have hi2 : i < (engine_c_step_core state params none none).systems.length := by
      rw [engine_c_step_core_length]
      exact hi
    obtain ⟨h2, hh2, hmap⟩ :=
      ih (t0 + 1) (engine_c_step_core state params none none) hd2 i hi2
    refine ⟨state :: h2, ?_, ?_⟩
    · rw [run_engine_c_aux, hstep]
      simp [hh2]
    · rw [run_engine_a_aux]
      simp only [List.map_cons]
      congr 1
      rw [hmap, engine_c_step_core_zero_coupling state params hW hi]
      simp [shockAt]

/-- C2: with an all-zero coupling matrix, the trajectory of each system i
under the Engine C network driver equals, step for step, the trajectory of
that system alone under the Engine A driver with the same parameters and the
same (absent) exogenous shocks; the N=1 zero-matrix case is an instance. -/
theorem engine_c_zero_coupling_refines_engine_a (state : EngineCState)
    (params : EngineCParams) (hW : ∀ row ∈ params.W, ∀ x ∈ row, x = 0)
    (hd : engine_c_dims_ok state params) (n : ℕ) {i : ℕ}
    (hi : i < state.systems.length) :
    ∃ h, run_engine_c state params (n : ℤ) = some h ∧
      h.map (fun ns => ns.systems.getD i dState) =
        run_engine_a (state.systems.getD i dState)
          (params.params_per_system.getD i dParams) (n : ℤ) none none := by
  have hmain := run_zero_coupling_aux params hW n 0 state hd i hi
  simpa [run_engine_c, run_engine_a] using hmain

/-- C2 witness: a single system with a 1x1 zero coupling matrix, run for two
steps through Engine C, projects to the Engine A run. -/
theorem engine_c_zero_coupling_refines_engine_a_witness :
    ∃ h,
      run_engine_c ⟨[⟨4, 1, 1/2, 0⟩]⟩
          ⟨[⟨1/10, 1/5, 1/10, 1/20, 1/50, 3/10⟩], [[0]]⟩ ((2 : ℕ) : ℤ) =
        some h ∧
      h.map (fun ns => ns.systems.getD 0 dState) =
        run_engine_a ((⟨[⟨4, 1, 1/2, 0⟩]⟩ :
              EngineCState).systems.getD 0 dState)
          ((⟨[⟨1/10, 1/5, 1/10, 1/20, 1/50, 3/10⟩], [[0]]⟩ :
              EngineCParams).params_per_system.getD 0 dParams)
          ((2 : ℕ) : ℤ) none none :=
  engine_c_zero_coupling_refines_engine_a ⟨[⟨4, 1, 1/2, 0⟩]⟩
    ⟨[⟨1/10, 1/5, 1/10, 1/20, 1/50, 3/10⟩], [[0]]⟩ (by decide) (by decide) 2
    (by decide)

/-- C3: one Engine A step from F=10, C=8, T=0.5, D=0 with
r=0.1, alpha=0.2, delta=0.1, lambda_trust=0.05, rho_trust=0.02,
kappa_capacity=0.3 and zero shocks computes pressure 2 and returns
F=8.042, C=8.6, T=0.42, D=0.4. -/
theorem engine_a_concrete_scenario_A :
    pressure 10 8 = 2 ∧
    engine_a_step ⟨10, 8, 1/2, 0⟩
      ⟨1/10, 1/5, 1/10, 1/20, 1/50, 3/10⟩ 0 0 =
      ⟨8042/1000, 86/10, 42/100, 4/10⟩ := by
  constructor
  · norm_num [pressure]
  · simp only [engine_a_step, pressure]
    norm_num

/-- C1: one Engine C network step computes system i's endogenous flow shock
as the exact sum over j of W[i][j] times pressure(F_j, C_j), with every
pressure taken from the pre-step state (two-pass structure); and with two
systems, W[0][1]=1.0 and all else zero, and system 1 having pressure 5, the
endogenous shock of system 0 is exactly 5 regardless of system 0's own
pressure. -/
theorem engine_c_endogenous_two_pass (state : EngineCState)
    (params : EngineCParams) (shocks_F shocks_C : Option (List ℚ))
    (h : engine_c_dims_ok state params) {i : ℕ}
    (hi : i < state.systems.length) :
    (∃ out, engine_c_step state params shocks_F shocks_C = some out ∧
      out.systems.getD i dState =
        engine_a_step (state.systems.getD i dState)
          (params.params_per_system.getD i dParams)
          (shockAt shocks_F i +
            ((List.range state.systems.length).map (fun j =>
              Wget params.W i j *
                pressure (state.systems.getD j dState).F
                  (state.systems.getD j dState).C)).sum)
          (shockAt shocks_C i)) ∧
    ∀ s0 s1 : EngineAState, pressure s1.F s1.C = 5 →
      engine_c_endo ⟨[s0, s1]⟩ [[0, 1], [0, 0]] 0 = 5 := by
  constructor
  · refine ⟨engine_c_step_core state params shocks_F shocks_C, ?_, ?_⟩
    · rw [engine_c_step, if_pos h]
    · rw [engine_c_step_core_getD state params shocks_F shocks_C hi,
        engine_c_endo_eq]
  · intro s0 s1 hP
    rw [engine_c_endo_eq]
    simp [Wget, List.range_succ]
    simpa using hP

/-- C1 witness: the two-pass theorem applied at a concrete two-system state
(system 0 has pressure 0, system 1 has pressure 5) with the scenario-B
coupling matrix. -/
theorem engine_c_endogenous_two_pass_witness :
    (∃ out,
      engine_c_step ⟨[⟨3, 3, 0, 0⟩, ⟨7, 2, 1, 0⟩]⟩
          ⟨[dParams, dParams], [[0, 1], [0, 0]]⟩ none none = some out ∧
      out.systems.getD 0 dState =
        engine_a_step ((⟨[⟨3, 3, 0, 0⟩, ⟨7, 2, 1, 0⟩]⟩ :
              EngineCState).systems.getD 0 dState)
          ((⟨[dParams, dParams], [[0, 1], [0, 0]]⟩ :
              EngineCParams).params_per_system.getD 0 dParams)
          (shockAt none 0 +
            ((List.range (⟨[⟨3, 3, 0, 0⟩, ⟨7, 2, 1, 0⟩]⟩ :
                EngineCState).systems.length).map (fun j =>
              Wget [[0, 1], [0, 0]] 0 j *
                pressure
                  ((⟨[⟨3, 3, 0, 0⟩, ⟨7, 2, 1, 0⟩]⟩ :
                      EngineCState).systems.getD j dState).F
                  ((⟨[⟨3, 3, 0, 0⟩, ⟨7, 2, 1, 0⟩]⟩ :
                      EngineCState).systems.getD j dState).C)).sum)
          (shockAt none 0)) ∧
    ∀ s0 s1 : EngineAState, pressure s1.F s1.C = 5 →
      engine_c_endo ⟨[s0, s1]⟩ [[0, 1], [0, 0]] 0 = 5 :=
  engine_c_endogenous_two_pass ⟨[⟨3, 3, 0, 0⟩, ⟨7, 2, 1, 0⟩]⟩
    ⟨[dParams, dParams], [[0, 1], [0, 0]]⟩ none none (by decide) (by decide)

/-- C9: for an input passing the dimension checks, one Engine C step returns
exactly N systems, and the output system at index i is the single-system
Engine A kernel applied to the input system at index i with the parameter
set at index i (index alignment preserved). -/
theorem engine_c_step_index_alignment (state : EngineCState)
    (params : EngineCParams) (shocks_F shocks_C : Option (List ℚ))
    (h : engine_c_dims_ok state params) :
    ∃ out, engine_c_step state params shocks_F shocks_C = some out ∧
      out.systems.length = state.systems.length ∧
      ∀ i, i < state.systems.length →
        out.systems.getD i dState =
          engine_a_step (state.systems.getD i dState)
            (params.params_per_system.getD i dParams)
            (shockAt shocks_F i + engine_c_endo state params.W i)
            (shockAt shocks_C i) := by
  refine ⟨engine_c_step_core state params shocks_F shocks_C, ?_, ?_, ?_⟩
  · rw [engine_c_step, if_pos h]
  · exact engine_c_step_core_length state params shocks_F shocks_C
  · intro i hi
    exact engine_c_step_core_getD state params shocks_F shocks_C hi

/-- C9 witness: index alignment instantiated on a concrete three-system
network. -/
theorem engine_c_step_index_alignment_witness :
    ∃ out,
      engine_c_step ⟨[⟨1, 2, 0, 0⟩, ⟨5, 1, 1, 0⟩, ⟨0, 0, 1/2, 3⟩]⟩
          ⟨[dParams, dParams, dParams],
            [[0, 1, 0], [0, 0, 0], [1, 0, 1]]⟩ none none = some out ∧
      out.systems.length =
        (⟨[⟨1, 2, 0, 0⟩, ⟨5, 1, 1, 0⟩, ⟨0, 0, 1/2, 3⟩]⟩ :
          EngineCState).systems.length ∧
      ∀ i, i < (⟨[⟨1, 2, 0, 0⟩, ⟨5, 1, 1, 0⟩, ⟨0, 0, 1/2, 3⟩]⟩ :
          EngineCState).systems.length →
        out.systems.getD i dState =
          engine_a_step
            ((⟨[⟨1, 2, 0, 0⟩, ⟨5, 1, 1, 0⟩, ⟨0, 0, 1/2, 3⟩]⟩ :
                EngineCState).systems.getD i dState)
            ((⟨[dParams, dParams, dParams],
                [[0, 1, 0], [0, 0, 0], [1, 0, 1]]⟩ :
                EngineCParams).params_per_system.getD i dParams)
            (shockAt none i +
              engine_c_endo ⟨[⟨1, 2, 0, 0⟩, ⟨5, 1, 1, 0⟩, ⟨0, 0, 1/2, 3⟩]⟩
                [[0, 1, 0], [0, 0, 0], [1, 0, 1]] i)
            (shockAt none i) :=
  engine_c_step_index_alignment ⟨[⟨1, 2, 0, 0⟩, ⟨5, 1, 1, 0⟩, ⟨0, 0, 1/2, 3⟩]⟩
    ⟨[dParams, dParams, dParams], [[0, 1, 0], [0, 0, 0], [1, 0, 1]]⟩
    none none (by decide)

/-- C6 counterexample: in Kernel 2 the pressure is the signed
`flow - capacity`: with zero inflow and outflow and capacity 5 the computed
pressure is -5, which is negative, refuting "in every variant the pressure is
max(0, F - C) and never negative". -/
theorem kernel2_pressure_negative_counterexample :
    (kernel2_step 0 5 0 0 0).pressure = -5 ∧
      ¬ (0 ≤ (kernel2_step 0 5 0 0 0).pressure) := by
  constructor
  · norm_num [kernel2_step]
  · norm_num [kernel2_step]

/-- C6 amended: in Engines A, B and C the pressure is `max(0, F - C)` and is
never negative; in Kernel 2, Kernel 3 and the two-system contagion kernel the
pressure is the signed difference of flow and capacity, with no clamp. -/
theorem pressure_by_variant :
    (∀ F C : ℚ, pressure F C = max 0 (F - C) ∧ 0 ≤ pressure F C) ∧
    (∀ s c i o k : ℚ, (kernel2_step s c i o k).pressure = (i - o) - c) ∧
    (∀ s c d i o k a de : ℚ,
      (kernel3_step s c d i o k a de).pressure = (i - o) - c) ∧
    (∀ F1 C1 D1 F2 C2 D2 T sh : ℚ, ∀ p : TwoSystemParams,
      (two_system_step F1 C1 D1 F2 C2 D2 T p sh).P1 = F1 - C1 ∧
      (two_system_step F1 C1 D1 F2 C2 D2 T p sh).P2 = F2 - C2) := by
  refine ⟨fun F C => ⟨rfl, le_max_left 0 _⟩, fun s c i o k => rfl,
    fun s c d i o k a de => rfl, fun F1 C1 D1 F2 C2 D2 T sh p => ⟨rfl, rfl⟩⟩

theorem engine_a_step_trust_bounds (s : EngineAState) (p : EngineAParams)
    (shock_F shock_C : ℚ) :
    0 ≤ (engine_a_step s p shock_F shock_C).T ∧
      (engine_a_step s p shock_F shock_C).T ≤ 1 := by
  simp only [engine_a_step]
  exact ⟨le_max_left 0 _, max_le zero_le_one (min_le_left 1 _)⟩

theorem engine_b_step_trust_bounds (s : EngineBState) (p : EngineBParams)
    (a b c d : ℚ) :
    (0 ≤ (engine_b_step s p a b c d).fast.T ∧
      (engine_b_step s p a b c d).fast.T ≤ 1) ∧
    (0 ≤ (engine_b_step s p a b c d).slow.T ∧
      (engine_b_step s p a b c d).slow.T ≤ 1) := by
  simp only [engine_b_step]
  exact ⟨⟨le_max_left 0 _, max_le zero_le_one (min_le_left 1 _)⟩,
    ⟨le_max_left 0 _, max_le zero_le_one (min_le_left 1 _)⟩⟩

theorem run_engine_a_aux_trust (p : EngineAParams)
    (shocks_F shocks_C : Option (List ℚ)) :
    ∀ (n t0 : ℕ) (s : EngineAState), 0 ≤ s.T → s.T ≤ 1 →
      ∀ x ∈ run_engine_a_aux s p n t0 shocks_F shocks_C,
        0 ≤ x.T ∧ x.T ≤ 1 := by
  intro n
  induction n with
  | zero =>
    intro t0 s h0 h1 x hx
    simp only [run_engine_a_aux, List.mem_singleton] at hx
    subst hx
    exact ⟨h0, h1⟩
  | succ m ih =>
    intro t0 s h0 h1 x hx
    simp only [run_engine_a_aux, List.mem_cons] at hx
    rcases hx with rfl | hx
    · exact ⟨h0, h1⟩
    · exact ih (t0 + 1) _ (engine_a_step_trust_bounds s p _ _).1
        (engine_a_step_trust_bounds s p _ _).2 x hx

theorem run_engine_b_aux_trust (p : EngineBParams) :
    ∀ (n : ℕ) (s : EngineBState),
      0 ≤ s.fast.T → s.fast.T ≤ 1 → 0 ≤ s.slow.T → s.slow.T ≤ 1 →
      ∀ x ∈ run_engine_b_aux s p n,
        (0 ≤ x.fast.T ∧ x.fast.T ≤ 1) ∧ (0 ≤ x.slow.T ∧ x.slow.T ≤ 1) := by
  intro n
  induction n with
  | zero =>
    intro s hf0 hf1 hs0 hs1 x hx
    simp only [run_engine_b_aux, List.mem_singleton] at hx
    subst hx
    exact ⟨⟨hf0, hf1⟩, ⟨hs0, hs1⟩⟩
  | succ m ih =>
    intro s hf0 hf1 hs0 hs1 x hx
    simp only [run_engine_b_aux, List.mem_cons] at hx
    rcases hx with rfl | hx
    · exact ⟨⟨hf0, hf1⟩, ⟨hs0, hs1⟩⟩
    · have hb := engine_b_step_trust_bounds s p 0 0 0 0
      exact ih _ hb.1.1 hb.1.2 hb.2.1 hb.2.2 x hx

theorem engine_c_step_core_trust (state : EngineCState)
    (params : EngineCParams) (shocks_F shocks_C : Option (List ℚ)) :
    ∀ sys ∈ (engine_c_step_core state params shocks_F shocks_C).systems,
      0 ≤ sys.T ∧ sys.T ≤ 1 := by
  intro sys hsys
  simp only [engine_c_step_core, List.mem_map] at hsys
  obtain ⟨i, _, rfl⟩ := hsys
  exact engine_a_step_trust_bounds _ _ _ _

theorem run_engine_c_aux_trust (params : EngineCParams) :
    ∀ (n : ℕ) (state : EngineCState) (h : List EngineCState),
      (∀ sys ∈ state.systems, 0 ≤ sys.T ∧ sys.T ≤ 1) →
      run_engine_c_aux state params n = some h →
      ∀ ns ∈ h, ∀ sys ∈ ns.systems, 0 ≤ sys.T ∧ sys.T ≤ 1 := by
  intro n
  induction n with
  | zero =>
    intro state h hs hrun
    simp only [run_engine_c_aux, Option.some.injEq] at hrun
    subst hrun
    intro ns hns
    simp only [List.mem_singleton] at hns
    subst hns
    exact hs
  | succ m ih =>
    intro state h hs hrun
    rw [run_engine_c_aux] at hrun
    cases hc : engine_c_step state params none none with
    | none => simp [hc] at hrun
    | some s2 =>
      simp only [hc] at hrun
      cases hr2 : run_engine_c_aux s2 params m with
      | none => simp [hr2] at hrun
      | some h2 =>
        simp only [hr2, Option.map_some', Option.some.injEq] at hrun
        subst hrun
        have hs2 : ∀ sys ∈ s2.systems, 0 ≤ sys.T ∧ sys.T ≤ 1 := by
          rw [engine_c_step] at hc
          by_cases hd : engine_c_dims_ok state params
          · rw [if_pos hd, Option.some.injEq] at hc
            subst hc
            exact engine_c_step_core_trust state params none none
          · rw [if_neg hd] at hc
            cases hc
        intro ns hns
        rcases List.mem_cons.mp hns with rfl | hns
        · exact hs
        · exact ih s2 h2 hs2 hr2 ns hns

theorem two_system_step_trust (F1 C1 D1 F2 C2 D2 T : ℚ)
    (p : TwoSystemParams) (shock1 : ℚ) (hlam : 0 ≤ p.lambda_T)
    (_h0 : 0 ≤ T) (h1 : T ≤ 1) :
    0 ≤ (two_system_step F1 C1 D1 F2 C2 D2 T p shock1).T_next ∧
      (two_system_step F1 C1 D1 F2 C2 D2 T p shock1).T_next ≤ 1 := by
  simp only [two_system_step]
  refine ⟨le_max_left 0 _, max_le zero_le_one ?_⟩
  have htot : 0 ≤ |F1 - C1| + |F2 - C2| :=
    add_nonneg (abs_nonneg _) (abs_nonneg _)
  have hmul := mul_nonneg hlam htot
  linarith

theorem simulate_two_system_aux_trust (p : TwoSystemParams)
    (hlam : 0 ≤ p.lambda_T) (bubble_steps : ℤ) (bubble_shock : ℚ) :
    ∀ (n t : ℕ) (F1 C1 D1 F2 C2 D2 T : ℚ), 0 ≤ T → T ≤ 1 →
      ∀ x ∈ simulate_two_system_aux n t F1 C1 D1 F2 C2 D2 T p
          bubble_steps bubble_shock,
        0 ≤ x.T ∧ x.T ≤ 1 := by
  intro n
  induction n with
  | zero =>
    intro t F1 C1 D1 F2 C2 D2 T _h0 _h1 x hx
    simp [simulate_two_system_aux] at hx
  | succ m ih =>
    intro t F1 C1 D1 F2 C2 D2 T h0 h1 x hx
    simp only [simulate_two_system_aux, List.mem_cons] at hx
    have hb := two_system_step_trust F1 C1 D1 F2 C2 D2 T p
      (if (t : ℤ) < bubble_steps then bubble_shock else 0) hlam h0 h1
    rcases hx with rfl | hx
    · exact hb
    · exact ih (t + 1) _ _ _ _ _ _ _ hb.1 hb.2 x hx

/-- Default network state for total indexing into Engine C histories. -/
def dNet : EngineCState := ⟨[]⟩

theorem run_engine_a_aux_props (p : EngineAParams)
    (shocks_F shocks_C : Option (List ℚ)) :
    ∀ (n t0 : ℕ) (s : EngineAState),
      (run_engine_a_aux s p n t0 shocks_F shocks_C).length = n + 1 ∧
      (run_engine_a_aux s p n t0 shocks_F shocks_C).getD 0 dState = s ∧
      ∀ t, t < n →
        (run_engine_a_aux s p n t0 shocks_F shocks_C).getD (t + 1) dState =
          engine_a_step
            ((run_engine_a_aux s p n t0 shocks_F shocks_C).getD t dState) p
            (shockAt shocks_F (t0 + t)) (shockAt shocks_C (t0 + t)) := by
  intro n
  induction n with
  | zero =>
    intro t0 s
    exact ⟨rfl, rfl, fun t ht => absurd ht (Nat.not_lt_zero t)⟩
  | succ m ih =>
    intro t0 s
    obtain ⟨ihl, ih0, ihs⟩ :=
      ih (t0 + 1) (engine_a_step s p (shockAt shocks_F t0) (shockAt shocks_C t0))
    simp only [run_engine_a_aux]
    refine ⟨by simp [ihl], rfl, ?_⟩
    intro t ht
    cases t with
    | zero =>
      simp only [List.getD_cons_succ, List.getD_cons_zero, Nat.add_zero]
      rw [ih0]
    | succ k =>
      have hk : k < m := Nat.succ_lt_succ_iff.mp ht
      simp only [List.getD_cons_succ]
      rw [ihs k hk]
      have harith : t0 + 1 + k = t0 + (k + 1) := by omega
      rw [harith]

theorem run_engine_b_aux_props (p : EngineBParams) :
    ∀ (n : ℕ) (s : EngineBState),
      (run_engine_b_aux s p n).length = n + 1 ∧
      (run_engine_b_aux s p n).getD 0 ⟨dState, dState⟩ = s ∧
      ∀ t, t < n →
        (run_engine_b_aux s p n).getD (t + 1) ⟨dState, dState⟩ =
          engine_b_step ((run_engine_b_aux s p n).getD t ⟨dState, dState⟩) p
            0 0 0 0 := by
  intro n
  induction n with
  | zero =>
    intro s
    exact ⟨rfl, rfl, fun t ht => absurd ht (Nat.not_lt_zero t)⟩
  | succ m ih =>
    intro s
    obtain ⟨ihl, ih0, ihs⟩ := ih (engine_b_step s p 0 0 0 0)
    simp only [run_engine_b_aux]
    refine ⟨by simp [ihl], rfl, ?_⟩
    intro t ht
    cases t with
    | zero =>
      simp only [List.getD_cons_succ, List.getD_cons_zero]
      rw [ih0]
    | succ k =>
      have hk : k < m := Nat.succ_lt_succ_iff.mp ht
      simp only [List.getD_cons_succ]
      exact ihs k hk

theorem run_engine_c_aux_props (params : EngineCParams) :
    ∀ (n : ℕ) (state : EngineCState), engine_c_dims_ok state params →
      ∃ h, run_engine_c_aux state params n = some h ∧
        h.length = n + 1 ∧ h.getD 0 dNet = state ∧
        ∀ t, t < n →
          engine_c_step (h.getD t dNet) params none none =
            some (h.getD (t + 1) dNet) := by
  intro n
  induction n with
  | zero =>
    intro state hd
    exact ⟨[state], rfl, rfl, rfl, fun t ht => absurd ht (Nat.not_lt_zero t)⟩
  | succ m ih =>
    intro state hd
    have hstep : engine_c_step state params none none =
        some (engine_c_step_core state params none none) := by
      rw [engine_c_step, if_pos hd]
    obtain ⟨h2, hh2, hl2, h02, hs2⟩ :=
      ih (engine_c_step_core state params none none)
        (engine_c_dims_ok_core state params none none hd)
    refine ⟨state :: h2, ?_, by simp [hl2], rfl, ?_⟩
    · rw [run_engine_c_aux, hstep]
      simp [hh2]
    · intro t ht
      cases t with
      | zero =>
        simp only [List.getD_cons_succ, List.getD_cons_zero]
        rw [h02, hstep]
      | succ k =>
        have hk : k < m := Nat.succ_lt_succ_iff.mp ht
        simp only [List.getD_cons_succ]
        exact hs2 k hk

theorem simulate_kernel2_aux_length (k : ℚ)
    (inflow_rule outflow_rule : ℕ → ℚ → ℚ → ℚ) :
    ∀ (n t : ℕ) (S C : ℚ),
      (simulate_kernel2_aux n t S C k inflow_rule outflow_rule).length = n := by
  intro n
  induction n with
  | zero => intro t S C; rfl
  | succ m ih =>
    intro t S C
    simp only [simulate_kernel2_aux, List.length_cons, ih]

theorem simulate_kernel3_aux_length (k alpha delta : ℚ)
    (inflow_rule outflow_rule : ℕ → ℚ → ℚ → ℚ → ℚ) :
    ∀ (n t : ℕ) (S C D : ℚ),
      (simulate_kernel3_aux n t S C D k alpha delta inflow_rule
        outflow_rule).length = n := by
  intro n
  induction n with
  | zero => intro t S C D; rfl
  | succ m ih =>
    intro t S C D
    simp only [simulate_kernel3_aux, List.length_cons, ih]

theorem simulate_two_system_aux_length (p : TwoSystemParams)
    (bubble_steps : ℤ) (bubble_shock : ℚ) :
    ∀ (n t : ℕ) (F1 C1 D1 F2 C2 D2 T : ℚ),
      (simulate_two_system_aux n t F1 C1 D1 F2 C2 D2 T p bubble_steps
        bubble_shock).length = n := by
  intro n
  induction n with
  | zero => intro t F1 C1 D1 F2 C2 D2 T; rfl
  | succ m ih =>
    intro t F1 C1 D1 F2 C2 D2 T
    simp only [simulate_two_system_aux, List.length_cons, ih]

/-- C4 counterexample: the two-system contagion kernel has no upper trust
clamp. With lambda_T = -1 (a finite real parameter), initial shared trust 1
(inside [0,1]) and system 1 at pressure 2, the single recorded history state
has trust 3, outside [0,1]. -/
theorem trust_above_one_counterexample :
    (0 : ℚ) ≤ 1 ∧ (1 : ℚ) ≤ 1 ∧
    ((simulate_two_system_kernel 1 2 0 0 0 0 0 1
        ⟨0, 0, 0, 0, 0, 0, 0, 0, -1, 0⟩ 0 0).getD 0
        ⟨0, 0, 0, 0, 0, 0, 0, 0, 0, 0⟩).T = 3 ∧
    ¬ ((3 : ℚ) ≤ 1) := by
  refine ⟨by norm_num, le_refl 1, ?_, by norm_num⟩
  norm_num [simulate_two_system_kernel, simulate_two_system_aux,
    two_system_step]

/-- C4 amended: for Engines A, B and C (per-system trust hard-clamped into
[0,1]) every trust value in every history state lies in [0,1] for any
parameters and shocks, given initial trust in [0,1]; for the two-system
contagion kernel (shared trust clamped below only) the same holds provided
lambda_T ≥ 0. -/
theorem trust_clamp_invariant :
    (∀ (s : EngineAState) (p : EngineAParams) (steps : ℤ)
        (shocks_F shocks_C : Option (List ℚ)),
      0 ≤ s.T → s.T ≤ 1 →
      ∀ x ∈ run_engine_a s p steps shocks_F shocks_C,
        0 ≤ x.T ∧ x.T ≤ 1) ∧
    (∀ (s : EngineBState) (p : EngineBParams) (steps : ℤ),
      0 ≤ s.fast.T → s.fast.T ≤ 1 → 0 ≤ s.slow.T → s.slow.T ≤ 1 →
      ∀ x ∈ run_engine_b s p steps,
        (0 ≤ x.fast.T ∧ x.fast.T ≤ 1) ∧ (0 ≤ x.slow.T ∧ x.slow.T ≤ 1)) ∧
    (∀ (s : EngineCState) (p : EngineCParams) (steps : ℤ)
        (h : List EngineCState),
      (∀ sys ∈ s.systems, 0 ≤ sys.T ∧ sys.T ≤ 1) →
      run_engine_c s p steps = some h →
      ∀ ns ∈ h, ∀ sys ∈ ns.systems, 0 ≤ sys.T ∧ sys.T ≤ 1) ∧
    (∀ (steps : ℤ) (F1 C1 D1 F2 C2 D2 T0 : ℚ) (p : TwoSystemParams)
        (bubble_steps : ℤ) (bubble_shock : ℚ),
      0 ≤ p.lambda_T → 0 ≤ T0 → T0 ≤ 1 →
      ∀ x ∈ simulate_two_system_kernel steps F1 C1 D1 F2 C2 D2 T0 p
          bubble_steps bubble_shock,
        0 ≤ x.T ∧ x.T ≤ 1) := by
  refine ⟨?_, ?_, ?_, ?_⟩
  · intro s p steps sF sC h0 h1 x hx
    exact run_engine_a_aux_trust p sF sC steps.toNat 0 s h0 h1 x hx
  · intro s p steps hf0 hf1 hs0 hs1 x hx
    exact run_engine_b_aux_trust p steps.toNat s hf0 hf1 hs0 hs1 x hx
  · intro s p steps h hs hrun ns hns sys hsys
    exact run_engine_c_aux_trust p steps.toNat s h hs hrun ns hns sys hsys
  · intro steps F1 C1 D1 F2 C2 D2 T0 p bs bsh hlam h0 h1 x hx
    exact simulate_two_system_aux_trust p hlam bs bsh steps.toNat 0
      F1 C1 D1 F2 C2 D2 T0 h0 h1 x hx

/-- C4 witness: the amended trust invariant applied to concrete runs of
Engine A (three steps) and the two-system kernel with its default
parameters. -/
theorem trust_clamp_invariant_witness :
    (0 : ℚ) ≤ (1/2 : ℚ) ∧ (1/2 : ℚ) ≤ 1 ∧
    (∀ x ∈ run_engine_a ⟨10, 8, 1/2, 0⟩
        ⟨1/10, 1/5, 1/10, 1/20, 1/50, 3/10⟩ 3 none none,
      0 ≤ x.T ∧ x.T ≤ 1) ∧
    0 ≤ twoSystemDefaultParams.lambda_T ∧
    (∀ x ∈ simulate_two_system_kernel 5 1 1 0 1 1 0 1
        twoSystemDefaultParams 10 (1/2),
      0 ≤ x.T ∧ x.T ≤ 1) :=
  ⟨by norm_num, by norm_num,
    trust_clamp_invariant.1 ⟨10, 8, 1/2, 0⟩
      ⟨1/10, 1/5, 1/10, 1/20, 1/50, 3/10⟩ 3 none none (by norm_num)
      (by norm_num),
    by norm_num [twoSystemDefaultParams],
    trust_clamp_invariant.2.2.2 5 1 1 0 1 1 0 1 twoSystemDefaultParams 10
      (1/2) (by norm_num [twoSystemDefaultParams]) (by norm_num)
      (by norm_num)⟩

/-- C5 counterexample: the two-system contagion kernel's driver runs for 0
steps and returns the empty list, not a length-1 history holding the initial
condition; its history length is `steps`, not `steps + 1`. -/
theorem history_length_counterexample :
    (simulate_two_system_kernel 0 1 1 0 1 1 0 1 twoSystemDefaultParams 10
      (1/2)).length = 0 ∧ (0 : ℕ) ≠ 0 + 1 := by
  exact ⟨rfl, by decide⟩

/-- C5 amended: the Engine A, B and C drivers return histories of length
steps+1 with index 0 the initial condition and index t the state after t
transitions (consecutive entries related by the step function); the Kernel 2,
Kernel 3 and two-system-contagion drivers instead return histories of length
steps that do not start with the initial condition. -/
theorem history_length_by_variant :
    (∀ (s : EngineAState) (p : EngineAParams) (n : ℕ)
        (shocks_F shocks_C : Option (List ℚ)),
      (run_engine_a s p (n : ℤ) shocks_F shocks_C).length = n + 1 ∧
      (run_engine_a s p (n : ℤ) shocks_F shocks_C).getD 0 dState = s ∧
      ∀ t, t < n →
        (run_engine_a s p (n : ℤ) shocks_F shocks_C).getD (t + 1) dState =
          engine_a_step
            ((run_engine_a s p (n : ℤ) shocks_F shocks_C).getD t dState) p
            (shockAt shocks_F t) (shockAt shocks_C t)) ∧
    (∀ (s : EngineBState) (p : EngineBParams) (n : ℕ),
      (run_engine_b s p (n : ℤ)).length = n + 1 ∧
      (run_engine_b s p (n : ℤ)).getD 0 ⟨dState, dState⟩ = s ∧
      ∀ t, t < n →
        (run_engine_b s p (n : ℤ)).getD (t + 1) ⟨dState, dState⟩ =
          engine_b_step ((run_engine_b s p (n : ℤ)).getD t ⟨dState, dState⟩)
            p 0 0 0 0) ∧
    (∀ (s : EngineCState) (p : EngineCParams) (n : ℕ),
      engine_c_dims_ok s p →
      ∃ h, run_engine_c s p (n : ℤ) = some h ∧
        h.length = n + 1 ∧ h.getD 0 dNet = s ∧
        ∀ t, t < n →
          engine_c_step (h.getD t dNet) p none none =
            some (h.getD (t + 1) dNet)) ∧
    (∀ (n : ℕ) (S0 C0 k : ℚ) (inflow_rule outflow_rule : ℕ → ℚ → ℚ → ℚ),
      (simulate_kernel2 (n : ℤ) S0 C0 k inflow_rule outflow_rule).length =
        n) ∧
    (∀ (n : ℕ) (S0 C0 D0 k alpha delta : ℚ)
        (inflow_rule outflow_rule : ℕ → ℚ → ℚ → ℚ → ℚ),
      (simulate_kernel3 (n : ℤ) S0 C0 D0 k alpha delta inflow_rule
        outflow_rule).length = n) ∧
    (∀ (n : ℕ) (F1 C1 D1 F2 C2 D2 T0 : ℚ) (p : TwoSystemParams)
        (bubble_steps : ℤ) (bubble_shock : ℚ),
      (simulate_two_system_kernel (n : ℤ) F1 C1 D1 F2 C2 D2 T0 p
        bubble_steps bubble_shock).length = n) := by
  refine ⟨?_, ?_, ?_, ?_, ?_, ?_⟩
  · intro s p n sF sC
    have hmain := run_engine_a_aux_props p sF sC n 0 s
    simpa [run_engine_a] using hmain
  · intro s p n
    have hmain := run_engine_b_aux_props p n s
    simpa [run_engine_b] using hmain
  · intro s p n hd
    have hmain := run_engine_c_aux_props p n s hd
    simpa [run_engine_c] using hmain
  · intro n S0 C0 k ir our
    have hmain := simulate_kernel2_aux_length k ir our n 0 S0 C0
    simpa [simulate_kernel2] using hmain
  · intro n S0 C0 D0 k alpha delta ir our
    have hmain := simulate_kernel3_aux_length k alpha delta ir our n 0 S0 C0 D0
    simpa [simulate_kernel3] using hmain
  · intro n F1 C1 D1 F2 C2 D2 T0 p bs bsh
    have hmain := simulate_two_system_aux_length p bs bsh n 0 F1 C1 D1 F2 C2 D2 T0
    simpa [simulate_two_system_kernel] using hmain

/-- C5 witness: the Engine C history facts instantiated on a concrete
two-system network run for three steps. -/
theorem history_length_by_variant_witness :
    ∃ h,
      run_engine_c ⟨[⟨2, 1, 1, 0⟩, ⟨0, 3, 1/2, 0⟩]⟩
          ⟨[dParams, dParams], [[0, 1], [1, 0]]⟩ ((3 : ℕ) : ℤ) = some h ∧
      h.length = 3 + 1 ∧
      h.getD 0 dNet = ⟨[⟨2, 1, 1, 0⟩, ⟨0, 3, 1/2, 0⟩]⟩ ∧
      ∀ t, t < 3 →
        engine_c_step (h.getD t dNet)
            ⟨[dParams, dParams], [[0, 1], [1, 0]]⟩ none none =
          some (h.getD (t + 1) dNet) :=
  history_length_by_variant.2.2.1 ⟨[⟨2, 1, 1, 0⟩, ⟨0, 3, 1/2, 0⟩]⟩
    ⟨[dParams, dParams], [[0, 1], [1, 0]]⟩ 3 (by decide)

/-- C7 counterexample: a negative step count does not raise any error: every
driver is total on negative step counts, `run_engine_a` returns the
single-element history holding the initial state, and the two-system driver
returns the empty list. -/
theorem negative_steps_counterexample :
    run_engine_a ⟨10, 8, 1/2, 0⟩ ⟨1/10, 1/5, 1/10, 1/20, 1/50, 3/10⟩ (-1)
        none none = [⟨10, 8, 1/2, 0⟩] ∧
    simulate_two_system_kernel (-3) 1 1 0 1 1 0 1 twoSystemDefaultParams 10
        (1/2) = [] := by
  exact ⟨rfl, rfl⟩

/-- C7 amended: a negative step count is treated as zero iterations (Python's
`range` of a negative number is empty): no transition executes, no error is
raised, and the drivers return the initial-state-only history (Engines A, B,
C) or the empty list (Kernel 2, Kernel 3, two-system contagion). -/
theorem negative_steps_run_nothing (steps : ℤ) (h : steps < 0) :
    (∀ (s : EngineAState) (p : EngineAParams)
        (shocks_F shocks_C : Option (List ℚ)),
      run_engine_a s p steps shocks_F shocks_C = [s]) ∧
    (∀ (s : EngineBState) (p : EngineBParams),
      run_engine_b s p steps = [s]) ∧
    (∀ (s : EngineCState) (p : EngineCParams),
      run_engine_c s p steps = some [s]) ∧
    (∀ (S0 C0 k : ℚ) (inflow_rule outflow_rule : ℕ → ℚ → ℚ → ℚ),
      simulate_kernel2 steps S0 C0 k inflow_rule outflow_rule = []) ∧
    (∀ (S0 C0 D0 k alpha delta : ℚ)
        (inflow_rule outflow_rule : ℕ → ℚ → ℚ → ℚ → ℚ),
      simulate_kernel3 steps S0 C0 D0 k alpha delta inflow_rule
        outflow_rule = []) ∧
    (∀ (F1 C1 D1 F2 C2 D2 T0 : ℚ) (p : TwoSystemParams)
        (bubble_steps : ℤ) (bubble_shock : ℚ),
      simulate_two_system_kernel steps F1 C1 D1 F2 C2 D2 T0 p bubble_steps
        bubble_shock = []) := by
  have h0 : steps.toNat = 0 := Int.toNat_of_nonpos h.le
  refine ⟨?_, ?_, ?_, ?_, ?_, ?_⟩
  · intro s p sF sC
    rw [run_engine_a, h0]
    rfl
  · intro s p
    rw [run_engine_b, h0]
    rfl
  · intro s p
    rw [run_engine_c, h0]
    rfl
  · intro S0 C0 k ir our
    rw [simulate_kernel2, h0]
    rfl
  · intro S0 C0 D0 k alpha delta ir our
    rw [simulate_kernel3, h0]
    rfl
  · intro F1 C1 D1 F2 C2 D2 T0 p bs bsh
    rw [simulate_two_system_kernel, h0]
    rfl

/-- C7 witness: the negative-step behaviour at steps = -2. -/
theorem negative_steps_run_nothing_witness :
    (-2 : ℤ) < 0 ∧
    run_engine_a ⟨1, 2, 1/2, 0⟩ dParams (-2) none none = [⟨1, 2, 1/2, 0⟩] :=
  ⟨by norm_num,
    (negative_steps_run_nothing (-2) (by norm_num)).1 ⟨1, 2, 1/2, 0⟩ dParams
      none none⟩

/-- C8: every simulation driver is a deterministic pure function of its
inputs: two invocations with identical initial state, parameters, step count
and shock schedules (or rule functions) produce identical histories. -/
theorem run_deterministic :
    (∀ (s1 s2 : EngineAState) (p1 p2 : EngineAParams) (n1 n2 : ℤ)
        (sF1 sF2 sC1 sC2 : Option (List ℚ)),
      s1 = s2 → p1 = p2 → n1 = n2 → sF1 = sF2 → sC1 = sC2 →
      run_engine_a s1 p1 n1 sF1 sC1 = run_engine_a s2 p2 n2 sF2 sC2) ∧
    (∀ (s1 s2 : EngineBState) (p1 p2 : EngineBParams) (n1 n2 : ℤ),
      s1 = s2 → p1 = p2 → n1 = n2 →
      run_engine_b s1 p1 n1 = run_engine_b s2 p2 n2) ∧
    (∀ (s1 s2 : EngineCState) (p1 p2 : EngineCParams) (n1 n2 : ℤ),
      s1 = s2 → p1 = p2 → n1 = n2 →
      run_engine_c s1 p1 n1 = run_engine_c s2 p2 n2) ∧
    (∀ (n1 n2 : ℤ) (S1 S2 C1 C2 k1 k2 : ℚ)
        (ir1 ir2 or1 or2 : ℕ → ℚ → ℚ → ℚ),
      n1 = n2 → S1 = S2 → C1 = C2 → k1 = k2 → ir1 = ir2 → or1 = or2 →
      simulate_kernel2 n1 S1 C1 k1 ir1 or1 =
        simulate_kernel2 n2 S2 C2 k2 ir2 or2) ∧
    (∀ (n1 n2 : ℤ) (S1 S2 C1 C2 D1 D2 k1 k2 a1 a2 d1 d2 : ℚ)
        (ir1 ir2 or1 or2 : ℕ → ℚ → ℚ → ℚ → ℚ),
      n1 = n2 → S1 = S2 → C1 = C2 → D1 = D2 → k1 = k2 → a1 = a2 → d1 = d2 →
      ir1 = ir2 → or1 = or2 →
      simulate_kernel3 n1 S1 C1 D1 k1 a1 d1 ir1 or1 =
        simulate_kernel3 n2 S2 C2 D2 k2 a2 d2 ir2 or2) ∧
    (∀ (n1 n2 : ℤ) (F1 F1b C1 C1b D1 D1b F2 F2b C2 C2b D2 D2b T1 T2 : ℚ)
        (p1 p2 : TwoSystemParams) (bs1 bs2 : ℤ) (bh1 bh2 : ℚ),
      n1 = n2 → F1 = F1b → C1 = C1b → D1 = D1b → F2 = F2b → C2 = C2b →
      D2 = D2b → T1 = T2 → p1 = p2 → bs1 = bs2 → bh1 = bh2 →
      simulate_two_system_kernel n1 F1 C1 D1 F2 C2 D2 T1 p1 bs1 bh1 =
        simulate_two_system_kernel n2 F1b C1b D1b F2b C2b D2b T2 p2 bs2
          bh2) := by
  refine ⟨?_, ?_, ?_, ?_, ?_, ?_⟩
  · intro s1 s2 p1 p2 n1 n2 sF1 sF2 sC1 sC2 hs hp hn hF hC
    rw [hs, hp, hn, hF, hC]
  · intro s1 s2 p1 p2 n1 n2 hs hp hn
    rw [hs, hp, hn]
  · intro s1 s2 p1 p2 n1 n2 hs hp hn
    rw [hs, hp, hn]
  · intro n1 n2 S1 S2 C1 C2 k1 k2 ir1 ir2 or1 or2 hn hS hC hk hi ho
    rw [hn, hS, hC, hk, hi, ho]
  · intro n1 n2 S1 S2 C1 C2 D1 D2 k1 k2 a1 a2 d1 d2 ir1 ir2 or1 or2 hn hS hC
      hD hk ha hd hi ho
    rw [hn, hS, hC, hD, hk, ha, hd, hi, ho]
  · intro n1 n2 F1 F1b C1 C1b D1 D1b F2 F2b C2 C2b D2 D2b T1 T2 p1 p2 bs1
      bs2 bh1 bh2 h1 h2 h3 h4 h5 h6 h7 h8 h9 h10 h11
    rw [h1, h2, h3, h4, h5, h6, h7, h8, h9, h10, h11]

/-- C8 witness: determinism of the Engine A driver at a concrete input. -/
theorem run_deterministic_witness :
    run_engine_a ⟨10, 8, 1/2, 0⟩ ⟨1/10, 1/5, 1/10, 1/20, 1/50, 3/10⟩ 5
        (some [1, 0, 2]) none =
      run_engine_a ⟨10, 8, 1/2, 0⟩ ⟨1/10, 1/5, 1/10, 1/20, 1/50, 3/10⟩ 5
        (some [1, 0, 2]) none :=
  run_deterministic.1 ⟨10, 8, 1/2, 0⟩ ⟨10, 8, 1/2, 0⟩
    ⟨1/10, 1/5, 1/10, 1/20, 1/50, 3/10⟩ ⟨1/10, 1/5, 1/10, 1/20, 1/50, 3/10⟩
    5 5 (some [1, 0, 2]) (some [1, 0, 2]) none none rfl rfl rfl rfl rfl

/-- C10 counterexample: with lambda_T = 1 ≥ 0 but negative input trust
T = -1, one two-system step returns shared trust 0, and 0 ≤ T_next ≤ T fails
because T_next = 0 > -1 = T. -/
theorem shared_trust_monotone_counterexample :
    (0 : ℚ) ≤ (⟨0, 0, 0, 0, 0, 0, 0, 0, 1, 0⟩ : TwoSystemParams).lambda_T ∧
    (two_system_step 0 0 0 0 0 0 (-1) ⟨0, 0, 0, 0, 0, 0, 0, 0, 1, 0⟩
      0).T_next = 0 ∧
    ¬ ((two_system_step 0 0 0 0 0 0 (-1) ⟨0, 0, 0, 0, 0, 0, 0, 0, 1, 0⟩
      0).T_next ≤ -1) := by
  refine ⟨by norm_num, ?_, ?_⟩ <;> norm_num [two_system_step]

/-- C10 amended: in the two-system contagion kernel, for every state with
lambda_T ≥ 0 and non-negative shared trust T, one step returns shared trust
with 0 ≤ T_next ≤ T: shared trust never increases (no recovery term, only
erosion by absolute pressure, clamped below at 0). -/
theorem shared_trust_monotone (F1 C1 D1 F2 C2 D2 T : ℚ)
    (p : TwoSystemParams) (shock1 : ℚ) (hlam : 0 ≤ p.lambda_T)
    (hT : 0 ≤ T) :
    0 ≤ (two_system_step F1 C1 D1 F2 C2 D2 T p shock1).T_next ∧
      (two_system_step F1 C1 D1 F2 C2 D2 T p shock1).T_next ≤ T := by
  simp only [two_system_step]
  refine ⟨le_max_left 0 _, max_le hT ?_⟩
  have hmul := mul_nonneg hlam
    (add_nonneg (abs_nonneg (F1 - C1)) (abs_nonneg (F2 - C2)))
  linarith

/-- C10 witness: shared-trust monotonicity at a concrete step with the
default parameters. -/
theorem shared_trust_monotone_witness :
    0 ≤ twoSystemDefaultParams.lambda_T ∧ (0 : ℚ) ≤ 1 ∧
    0 ≤ (two_system_step 3 1 0 2 5 0 1 twoSystemDefaultParams
      (1/2)).T_next ∧
    (two_system_step 3 1 0 2 5 0 1 twoSystemDefaultParams (1/2)).T_next ≤
      1 :=
  ⟨by norm_num [twoSystemDefaultParams], by norm_num,
    (shared_trust_monotone 3 1 0 2 5 0 1 twoSystemDefaultParams (1/2)
      (by norm_num [twoSystemDefaultParams]) (by norm_num)).1,
    (shared_trust_monotone 3 1 0 2 5 0 1 twoSystemDefaultParams (1/2)
      (by norm_num [twoSystemDefaultParams]) (by norm_num)).2⟩

end FlowTheory
